import Mathlib

/-
  Verification development for the applespi MacBook SPI keyboard/touchpad driver
  (src/linux-4.14.22/drivers/applespi/applespi.c).

  The driver's protocol engine is shallowly embedded below: each Lean definition
  mirrors one C function (or a named contiguous block of one), with machine
  integers modelled as Nat with explicit reductions modulo 2^32 or 256 where the
  C code relies on fixed-width wrap-around, buffers modelled as List Nat of byte
  values, and the asynchronous spi_async submission outcome passed in as an
  explicit Bool parameter (true = spi_async returned 0).
-/

set_option maxRecDepth 40000
set_option maxHeartbeats 1000000

namespace Applespi

/-- Constant APPLESPI_PACKET_SIZE from applespi.c line 74. -/
def APPLESPI_PACKET_SIZE : Nat := 256

/-- Constant PACKET_TYPE_READ from applespi.c line 77. -/
def PACKET_TYPE_READ : Nat := 0x20

/-- Constant PACKET_TYPE_WRITE from applespi.c line 78. -/
def PACKET_TYPE_WRITE : Nat := 0x40

/-- Constant PACKET_DEV_KEYB from applespi.c line 79. -/
def PACKET_DEV_KEYB : Nat := 0x01

/-- Constant PACKET_DEV_TPAD from applespi.c line 80. -/
def PACKET_DEV_TPAD : Nat := 0x02

/-- Constant MAX_PKTS_PER_MSG from applespi.c line 87. -/
def MAX_PKTS_PER_MSG : Nat := 2

/-- Constant MIN_KBD_BL_LEVEL from applespi.c line 89. -/
def MIN_KBD_BL_LEVEL : Nat := 32

/-- Constant MAX_KBD_BL_LEVEL from applespi.c line 90. -/
def MAX_KBD_BL_LEVEL : Nat := 255

/-- Constant KBD_BL_LEVEL_SCALE from applespi.c line 91. -/
def KBD_BL_LEVEL_SCALE : Nat := 1000000

/-- Constant KBD_BL_LEVEL_ADJ from applespi.c lines 92-93; C integer division. -/
def KBD_BL_LEVEL_ADJ : Nat :=
  (MAX_KBD_BL_LEVEL - MIN_KBD_BL_LEVEL) * KBD_BL_LEVEL_SCALE / 255

/-- Debug mask DBG_CMD_TP_INI from applespi.c line 95. -/
def DBG_CMD_TP_INI : Nat := 1

/-- Debug mask DBG_CMD_BL from applespi.c line 96. -/
def DBG_CMD_BL : Nat := 2

/-- Debug mask DBG_CMD_CL from applespi.c line 97. -/
def DBG_CMD_CL : Nat := 4

/-- Constant MSG_HEADER_SIZE from applespi.c line 301. -/
def MSG_HEADER_SIZE : Nat := 8

/-- Modulus of the C type unsigned int (32 bits), used where the C code relies
on unsigned wrap-around. -/
def U32 : Nat := 4294967296

/-- One shift step of the reflected CRC-16 with polynomial 0xA001: the
generator from which each entry of the lib/crc16.c table is built
(entry i = eight shift steps applied to i). -/
def crc16_shift (c : Nat) : Nat :=
  if c % 2 = 1 then (c / 2) ^^^ 0xA001 else c / 2

/-- The crc16_table of lib/crc16.c (reflected CRC-16, polynomial 0xA001),
used by the crc16() calls in applespi.c. -/
def crc16_table : List Nat := [
  0x0000, 0xC0C1, 0xC181, 0x0140, 0xC301, 0x03C0, 0x0280, 0xC241,
  0xC601, 0x06C0, 0x0780, 0xC741, 0x0500, 0xC5C1, 0xC481, 0x0440,
  0xCC01, 0x0CC0, 0x0D80, 0xCD41, 0x0F00, 0xCFC1, 0xCE81, 0x0E40,
  0x0A00, 0xCAC1, 0xCB81, 0x0B40, 0xC901, 0x09C0, 0x0880, 0xC841,
  0xD801, 0x18C0, 0x1980, 0xD941, 0x1B00, 0xDBC1, 0xDA81, 0x1A40,
  0x1E00, 0xDEC1, 0xDF81, 0x1F40, 0xDD01, 0x1DC0, 0x1C80, 0xDC41,
  0x1400, 0xD4C1, 0xD581, 0x1540, 0xD701, 0x17C0, 0x1680, 0xD641,
  0xD201, 0x12C0, 0x1380, 0xD341, 0x1100, 0xD1C1, 0xD081, 0x1040,
  0xF001, 0x30C0, 0x3180, 0xF141, 0x3300, 0xF3C1, 0xF281, 0x3240,
  0x3600, 0xF6C1, 0xF781, 0x3740, 0xF501, 0x35C0, 0x3480, 0xF441,
  0x3C00, 0xFCC1, 0xFD81, 0x3D40, 0xFF01, 0x3FC0, 0x3E80, 0xFE41,
  0xFA01, 0x3AC0, 0x3B80, 0xFB41, 0x3900, 0xF9C1, 0xF881, 0x3840,
  0x2800, 0xE8C1, 0xE981, 0x2940, 0xEB01, 0x2BC0, 0x2A80, 0xEA41,
  0xEE01, 0x2EC0, 0x2F80, 0xEF41, 0x2D00, 0xEDC1, 0xEC81, 0x2C40,
  0xE401, 0x24C0, 0x2580, 0xE541, 0x2700, 0xE7C1, 0xE681, 0x2640,
  0x2200, 0xE2C1, 0xE381, 0x2340, 0xE101, 0x21C0, 0x2080, 0xE041,
  0xA001, 0x60C0, 0x6180, 0xA141, 0x6300, 0xA3C1, 0xA281, 0x6240,
  0x6600, 0xA6C1, 0xA781, 0x6740, 0xA501, 0x65C0, 0x6480, 0xA441,
  0x6C00, 0xACC1, 0xAD81, 0x6D40, 0xAF01, 0x6FC0, 0x6E80, 0xAE41,
  0xAA01, 0x6AC0, 0x6B80, 0xAB41, 0x6900, 0xA9C1, 0xA881, 0x6840,
  0x7800, 0xB8C1, 0xB981, 0x7940, 0xBB01, 0x7BC0, 0x7A80, 0xBA41,
  0xBE01, 0x7EC0, 0x7F80, 0xBF41, 0x7D00, 0xBDC1, 0xBC81, 0x7C40,
  0xB401, 0x74C0, 0x7580, 0xB541, 0x7700, 0xB7C1, 0xB681, 0x7640,
  0x7200, 0xB2C1, 0xB381, 0x7340, 0xB101, 0x71C0, 0x7080, 0xB041,
  0x5000, 0x90C1, 0x9181, 0x5140, 0x9301, 0x53C0, 0x5280, 0x9241,
  0x9601, 0x56C0, 0x5780, 0x9741, 0x5500, 0x95C1, 0x9481, 0x5440,
  0x9C01, 0x5CC0, 0x5D80, 0x9D41, 0x5F00, 0x9FC1, 0x9E81, 0x5E40,
  0x5A00, 0x9AC1, 0x9B81, 0x5B40, 0x9901, 0x59C0, 0x5880, 0x9841,
  0x8801, 0x48C0, 0x4980, 0x8941, 0x4B00, 0x8BC1, 0x8A81, 0x4A40,
  0x4E00, 0x8EC1, 0x8F81, 0x4F40, 0x8D01, 0x4DC0, 0x4C80, 0x8C41,
  0x4400, 0x84C1, 0x8581, 0x4540, 0x8701, 0x47C0, 0x4680, 0x8641,
  0x8201, 0x42C0, 0x4380, 0x8341, 0x4100, 0x81C1, 0x8081, 0x4040]

/-- crc16_byte of lib/crc16.c: one table-driven step,
(crc >> 8) ^ crc16_table[(crc ^ data) & 0xff]. -/
def crc16_byte (crc b : Nat) : Nat :=
  (crc / 256) ^^^ crc16_table.getD ((crc ^^^ b) % 256) 0

/-- The crc16 function of lib/crc16.c: fold crc16_byte over the buffer. -/
def crc16 (crc : Nat) (buf : List Nat) : Nat :=
  buf.foldl crc16_byte crc

/-- Reading a __le16 field from a byte buffer at byte index i
(le16_to_cpu of two consecutive bytes, low byte first). -/
def le16At (l : List Nat) (i : Nat) : Nat :=
  l.getD i 0 + 256 * l.getD (i + 1) 0

/-- The two little-endian bytes of a 16-bit value (cpu_to_le16). -/
def le16bytes (n : Nat) : List Nat :=
  [n % 256, n / 256 % 256]

/-- The protocol-relevant mutable fields of struct applespi_data
(applespi.c lines 358-409): the pending-configuration state, the command
counter, the exchange flags guarded by cmd_msg_lock, and the message
reassembly state (msg_buf, saved_msg_len). -/
structure St where
  want_init_cmd : Bool
  want_cl_led_on : Bool
  have_cl_led_on : Bool
  want_bl_level : Nat
  have_bl_level : Nat
  cmd_msg_cntr : Nat
  cmd_msg_queued : Bool
  cmd_log_mask : Nat
  drain : Bool
  read_active : Bool
  write_active : Bool
  msgBuf : List Nat
  saved_msg_len : Nat
deriving DecidableEq, Repr

/-- An outbound command message as built by applespi_send_cmd_msg: the packet
device, the message type, the counter field, and msg_len (the sizeof of the
type-specific payload struct including its trailing crc). -/
structure Cmd where
  device : Nat
  msgType : Nat
  counter : Nat
  msgLen : Nat
deriving DecidableEq, Repr

/-- The tail of applespi_send_cmd_msg (applespi.c lines 945-972): finalize the
packet for the command chosen by the branch that produced s1, assign the shared
post-incremented counter (line 950), submit via applespi_async, and set
cmd_msg_queued and write_active only when the submission succeeded
(lines 965-970). -/
def applespi_build_and_send (s1 : St) (device ty msgLen : Nat) (async_ok : Bool) :
    St × Option Cmd :=
  let cmd : Cmd := ⟨device, ty, s1.cmd_msg_cntr % 256, msgLen⟩
  let s2 := { s1 with cmd_msg_cntr := (s1.cmd_msg_cntr + 1) % U32 }
  if async_ok then
    ({ s2 with cmd_msg_queued := true, write_active := true }, some cmd)
  else
    (s2, some cmd)

/-- applespi_send_cmd_msg (applespi.c lines 873-973): no-op while draining or
while a command message is queued; otherwise choose the first pending command
in priority order init, caps-lock, backlight, mutate the corresponding
want/have field at build time, and submit.  The returned option is the command
handed to applespi_async (some even if the async submission failed). -/
def applespi_send_cmd_msg (s : St) (async_ok : Bool) : St × Option Cmd :=
  if s.drain then (s, none)
  else if s.cmd_msg_queued then (s, none)
  else if s.want_init_cmd then
    applespi_build_and_send
      { s with want_init_cmd := false, cmd_log_mask := DBG_CMD_TP_INI }
      PACKET_DEV_TPAD 0x0252 4 async_ok
  else if s.want_cl_led_on ≠ s.have_cl_led_on then
    applespi_build_and_send
      { s with have_cl_led_on := s.want_cl_led_on, cmd_log_mask := DBG_CMD_CL }
      PACKET_DEV_KEYB 0x0151 4 async_ok
  else if s.want_bl_level ≠ s.have_bl_level then
    applespi_build_and_send
      { s with have_bl_level := s.want_bl_level, cmd_log_mask := DBG_CMD_BL }
      PACKET_DEV_KEYB 0xB051 8 async_ok
  else (s, none)

/-- Result of applespi_msg_complete: the new state, whether the drain waiters
were woken, and the command (if any) submitted by the re-invocation of
applespi_send_cmd_msg. -/
structure MC where
  st : St
  wake : Bool
  sub : Option Cmd
deriving DecidableEq, Repr

/-- applespi_msg_complete (applespi.c lines 831-852): clear read_active and/or
write_active per the two flags, wake the drain waiters when draining and no
write is active, and on a write completion clear cmd_msg_queued and re-invoke
applespi_send_cmd_msg. -/
def applespi_msg_complete (s : St) (is_write_msg is_read_compl async_ok : Bool) : MC :=
  let s1 : St :=
    { s with
      read_active := if is_read_compl then false else s.read_active,
      write_active := if is_write_msg then false else s.write_active }
  let wake : Bool := s1.drain && !s1.write_active
  if is_write_msg then
    let s2 := { s1 with cmd_msg_queued := false }
    let r := applespi_send_cmd_msg s2 async_ok
    ⟨r.1, wake, r.2⟩
  else
    ⟨s1, wake, none⟩

/-- applespi_init (applespi.c lines 975-985): set want_init_cmd and invoke
applespi_send_cmd_msg. -/
def applespi_init (s : St) (async_ok : Bool) : St × Option Cmd :=
  applespi_send_cmd_msg { s with want_init_cmd := true } async_ok

/-- applespi_set_capsl_led (applespi.c lines 987-1001): set want_cl_led_on and
invoke applespi_send_cmd_msg. -/
def applespi_set_capsl_led (s : St) (capslock_on : Bool) (async_ok : Bool) :
    St × Option Cmd :=
  applespi_send_cmd_msg { s with want_cl_led_on := capslock_on } async_ok

/-- The user-to-device backlight level mapping of applespi_set_bl_level
(applespi.c lines 1014-1024): 0 maps to 0, and a nonzero value v maps to
v * KBD_BL_LEVEL_ADJ / KBD_BL_LEVEL_SCALE + MIN_KBD_BL_LEVEL with C integer
division. -/
def device_level (value : Nat) : Nat :=
  if value = 0 then 0
  else value * KBD_BL_LEVEL_ADJ / KBD_BL_LEVEL_SCALE + MIN_KBD_BL_LEVEL

/-- applespi_set_bl_level (applespi.c lines 1003-1029): scale the requested
brightness into want_bl_level and invoke applespi_send_cmd_msg. -/
def applespi_set_bl_level (s : St) (value : Nat) (async_ok : Bool) :
    St × Option Cmd :=
  applespi_send_cmd_msg { s with want_bl_level := device_level value } async_ok

/-- applespi_notify (applespi.c lines 1454-1475): unconditionally submit an
async read, and set read_active exactly when the submission succeeded.  The
second component records that a read submission was attempted (always true). -/
def applespi_notify (s : St) (async_ok : Bool) : St × Bool :=
  (if async_ok then { s with read_active := true } else s, true)

/-- The state-reset block of applespi_resume (applespi.c lines 1781-1787):
clear drain, the applied configuration (have_cl_led_on, have_bl_level) and all
exchange flags, leaving the desired configuration untouched. -/
def applespi_resume_reset (s : St) : St :=
  { s with
    drain := false,
    have_cl_led_on := false,
    have_bl_level := 0,
    cmd_msg_queued := false,
    read_active := false,
    write_active := false }

/-- applespi_resume (applespi.c lines 1775-1805): reset the state flags, then
re-run applespi_init to force the init command (the GPE re-enable and SPI
enable are external transport operations). -/
def applespi_resume (s : St) (async_ok : Bool) : St × Option Cmd :=
  applespi_init (applespi_resume_reset s) async_ok

/-- Outcome of processing one received packet in applespi_got_data, labelling
which branch of the function resolved the packet. -/
inductive Outcome where
  | transportError
  | frameCrcBad
  | invalidPktLen
  | unexpectedOffset
  | msgTooLarge
  | incomplete
  | lenMismatch
  | msgCrcBad
  | tpLenBad
  | complete (msg : List Nat)
deriving DecidableEq, Repr

/-- Result of applespi_got_data: the new state, the outcome label, whether the
drain waiters were woken, and any command submitted by the completion
bookkeeping. -/
structure GD where
  st : St
  out : Outcome
  wake : Bool
  sub : Option Cmd
deriving DecidableEq, Repr

/-- The cleanup tail of applespi_got_data (applespi.c lines 1428-1438): every
path reaching the cleanup label calls applespi_msg_complete with is_write_msg
set when the packet flags say PACKET_TYPE_WRITE and is_read_compl true. -/
def gd_cleanup (s : St) (o : Outcome) (flags : Nat) (async_ok : Bool) : GD :=
  let r := applespi_msg_complete s (flags == PACKET_TYPE_WRITE) true async_ok
  ⟨r.st, o, r.wake, r.sub⟩

/-- memcpy(msg_buf + off, data, data.length) on a buffer modelled as a list:
keep the first off bytes, splice in data, keep the tail. -/
def memcpyAt (buf : List Nat) (off : Nat) (data : List Nat) : List Nat :=
  buf.take off ++ data ++ buf.drop (off + data.length)

/-- The complete-message part of applespi_got_data (applespi.c lines
1385-1438): reset saved_msg_len, verify the declared message length (the C
expression msg_len - MSG_HEADER_SIZE - 2 on unsigned int, hence modulo 2^32)
and the whole-message crc, apply the touchpad length check of lines 1404-1412
when routing to the touchpad handler, and run the cleanup tail. -/
def applespi_finish_msg (s : St) (msg : List Nat) (msg_len : Nat)
    (flags device : Nat) (async_ok : Bool) : GD :=
  let s := { s with saved_msg_len := 0 }
  if le16At msg 6 ≠ (msg_len + U32 - (MSG_HEADER_SIZE + 2)) % U32 then
    gd_cleanup s Outcome.lenMismatch flags async_ok
  else if crc16 0 msg ≠ 0 then
    gd_cleanup s Outcome.msgCrcBad flags async_ok
  else if flags = PACKET_TYPE_READ ∧ device = PACKET_DEV_KEYB then
    gd_cleanup s (Outcome.complete msg) flags async_ok
  else if flags = PACKET_TYPE_READ ∧ device = PACKET_DEV_TPAD then
    if le16At msg 6 + 2 ≠ 48 + msg.getD (MSG_HEADER_SIZE + 30) 0 * 28 then
      gd_cleanup s Outcome.tpLenBad flags async_ok
    else
      gd_cleanup s (Outcome.complete msg) flags async_ok
  else
    gd_cleanup s (Outcome.complete msg) flags async_ok

/-- applespi_got_data (applespi.c lines 1307-1439): verify the packet crc (on
failure, wake the drain waiters when draining and return without touching
saved_msg_len); parse the packet header; reject over-long packet lengths;
for continuation packets enforce the strict offset order and the two-packet
size bound, append the packet data to msg_buf, and return early while bytes
remain; finally verify and route the complete message. -/
def applespi_got_data (s : St) (rx : List Nat) (async_ok : Bool) : GD :=
  if crc16 0 rx ≠ 0 then
    if s.drain then
      ⟨{ s with read_active := false, write_active := false },
        Outcome.frameCrcBad, true, none⟩
    else
      ⟨s, Outcome.frameCrcBad, false, none⟩
  else
    let flags := rx.getD 0 0
    let device := rx.getD 1 0
    let off := le16At rx 2
    let rem := le16At rx 4
    let len := le16At rx 6
    if len > 246 then
      gd_cleanup s Outcome.invalidPktLen flags async_ok
    else if rem > 0 ∨ off > 0 then
      if off ≠ s.saved_msg_len then
        gd_cleanup s Outcome.unexpectedOffset flags async_ok
      else if off + rem > MAX_PKTS_PER_MSG * APPLESPI_PACKET_SIZE then
        gd_cleanup s Outcome.msgTooLarge flags async_ok
      else if off + len > MAX_PKTS_PER_MSG * APPLESPI_PACKET_SIZE then
        gd_cleanup s Outcome.msgTooLarge flags async_ok
      else
        let s1 := { s with
          msgBuf := memcpyAt s.msgBuf off ((rx.drop 8).take len),
          saved_msg_len := s.saved_msg_len + len }
        if rem > 0 then
          ⟨s1, Outcome.incomplete, false, none⟩
        else
          applespi_finish_msg s1 (s1.msgBuf.take s1.saved_msg_len)
            s1.saved_msg_len flags device async_ok
    else
      applespi_finish_msg s ((rx.drop 8).take len) len flags device async_ok

/-- applespi_async_read_complete (applespi.c lines 1441-1452): on a transport
error (rd_m.status < 0) only log, leaving all state untouched; otherwise run
applespi_got_data. -/
def applespi_async_read_complete (s : St) (status_ok : Bool) (rx : List Nat)
    (async_ok : Bool) : GD :=
  if status_ok then applespi_got_data s rx async_ok
  else ⟨s, Outcome.transportError, false, none⟩

/-- Serialization of struct spi_packet (applespi.c lines 328-336) for building
concrete test frames: header bytes, the 246-byte data area (zero padded), and
the trailing crc over all preceding bytes. -/
def mkPacketBytes (flags device off rem len : Nat) (data : List Nat) : List Nat :=
  let d := (data ++ List.replicate 246 0).take 246
  let body := [flags, device] ++ le16bytes off ++ le16bytes rem ++ le16bytes len ++ d
  body ++ le16bytes (crc16 0 body)

/-- A baseline state: nothing pending, nothing queued, empty 512-byte
reassembly buffer. -/
def st0 : St :=
  { want_init_cmd := false
    want_cl_led_on := false
    have_cl_led_on := false
    want_bl_level := 0
    have_bl_level := 0
    cmd_msg_cntr := 0
    cmd_msg_queued := false
    cmd_log_mask := 0
    drain := false
    read_active := false
    write_active := false
    msgBuf := List.replicate 512 0
    saved_msg_len := 0 }

/-- Each crc16_table entry is the eight-fold shift step applied to its index,
i.e. the table is the one lib/crc16.c precomputes for polynomial 0xA001. -/
theorem crc16_table_spec : ∀ i : Fin 256, crc16_table.getD i.val 0 =
    crc16_shift (crc16_shift (crc16_shift (crc16_shift
      (crc16_shift (crc16_shift (crc16_shift (crc16_shift i.val))))))) := by
  decide

theorem build_and_send_read_active (s1 : St) (d t m : Nat) (ok : Bool) :
    (applespi_build_and_send s1 d t m ok).1.read_active = s1.read_active := by
  unfold applespi_build_and_send
  split <;> rfl

theorem build_and_send_saved (s1 : St) (d t m : Nat) (ok : Bool) :
    (applespi_build_and_send s1 d t m ok).1.saved_msg_len = s1.saved_msg_len := by
  unfold applespi_build_and_send
  split <;> rfl

theorem build_and_send_msgBuf (s1 : St) (d t m : Nat) (ok : Bool) :
    (applespi_build_and_send s1 d t m ok).1.msgBuf = s1.msgBuf := by
  unfold applespi_build_and_send
  split <;> rfl

theorem send_read_active (s : St) (ok : Bool) :
    (applespi_send_cmd_msg s ok).1.read_active = s.read_active := by
  unfold applespi_send_cmd_msg
  split_ifs <;> first
    | rfl
    | rw [build_and_send_read_active]

theorem send_saved (s : St) (ok : Bool) :
    (applespi_send_cmd_msg s ok).1.saved_msg_len = s.saved_msg_len := by
  unfold applespi_send_cmd_msg
  split_ifs <;> first
    | rfl
    | rw [build_and_send_saved]

theorem send_msgBuf (s : St) (ok : Bool) :
    (applespi_send_cmd_msg s ok).1.msgBuf = s.msgBuf := by
  unfold applespi_send_cmd_msg
  split_ifs <;> first
    | rfl
    | rw [build_and_send_msgBuf]

theorem msg_complete_read_active (s : St) (iw ok : Bool) :
    (applespi_msg_complete s iw true ok).st.read_active = false := by
  cases iw <;> simp [applespi_msg_complete, send_read_active]

theorem msg_complete_saved (s : St) (iw ir ok : Bool) :
    (applespi_msg_complete s iw ir ok).st.saved_msg_len = s.saved_msg_len := by
  cases iw <;> cases ir <;> simp [applespi_msg_complete, send_saved]

theorem msg_complete_msgBuf (s : St) (iw ir ok : Bool) :
    (applespi_msg_complete s iw ir ok).st.msgBuf = s.msgBuf := by
  cases iw <;> cases ir <;> simp [applespi_msg_complete, send_msgBuf]

theorem gd_cleanup_out (s : St) (o : Outcome) (f : Nat) (ok : Bool) :
    (gd_cleanup s o f ok).out = o := rfl

theorem gd_cleanup_saved (s : St) (o : Outcome) (f : Nat) (ok : Bool) :
    (gd_cleanup s o f ok).st.saved_msg_len = s.saved_msg_len := by
  unfold gd_cleanup
  exact msg_complete_saved ..

theorem gd_cleanup_msgBuf (s : St) (o : Outcome) (f : Nat) (ok : Bool) :
    (gd_cleanup s o f ok).st.msgBuf = s.msgBuf := by
  unfold gd_cleanup
  exact msg_complete_msgBuf ..

theorem gd_cleanup_read_active (s : St) (o : Outcome) (f : Nat) (ok : Bool) :
    (gd_cleanup s o f ok).st.read_active = false := by
  unfold gd_cleanup
  exact msg_complete_read_active ..

theorem finish_saved (s : St) (msg : List Nat) (n f d : Nat) (ok : Bool) :
    (applespi_finish_msg s msg n f d ok).st.saved_msg_len = 0 := by
  unfold applespi_finish_msg
  split_ifs <;> rw [gd_cleanup_saved]

theorem finish_read_active (s : St) (msg : List Nat) (n f d : Nat) (ok : Bool) :
    (applespi_finish_msg s msg n f d ok).st.read_active = false := by
  unfold applespi_finish_msg
  split_ifs <;> rw [gd_cleanup_read_active]

theorem finish_out (s : St) (msg : List Nat) (n f d : Nat) (ok : Bool) :
    (applespi_finish_msg s msg n f d ok).out = Outcome.lenMismatch ∨
    (applespi_finish_msg s msg n f d ok).out = Outcome.msgCrcBad ∨
    (applespi_finish_msg s msg n f d ok).out = Outcome.tpLenBad ∨
    (applespi_finish_msg s msg n f d ok).out = Outcome.complete msg := by
  unfold applespi_finish_msg
  split_ifs <;> rw [gd_cleanup_out] <;> simp

theorem build_and_send_sub (s1 : St) (d t m : Nat) (ok : Bool) :
    (applespi_build_and_send s1 d t m ok).2 =
      some ⟨d, t, s1.cmd_msg_cntr % 256, m⟩ := by
  unfold applespi_build_and_send
  split <;> rfl

theorem build_and_send_queued (s1 : St) (d t m : Nat) (ok : Bool) :
    (applespi_build_and_send s1 d t m ok).1.cmd_msg_queued =
      (ok || s1.cmd_msg_queued) := by
  unfold applespi_build_and_send
  cases ok <;> rfl

theorem build_and_send_write_active (s1 : St) (d t m : Nat) (ok : Bool) :
    (applespi_build_and_send s1 d t m ok).1.write_active =
      (ok || s1.write_active) := by
  unfold applespi_build_and_send
  cases ok <;> rfl

theorem build_and_send_cntr (s1 : St) (d t m : Nat) (ok : Bool) :
    (applespi_build_and_send s1 d t m ok).1.cmd_msg_cntr =
      (s1.cmd_msg_cntr + 1) % U32 := by
  unfold applespi_build_and_send
  cases ok <;> rfl

theorem build_and_send_want_init (s1 : St) (d t m : Nat) (ok : Bool) :
    (applespi_build_and_send s1 d t m ok).1.want_init_cmd = s1.want_init_cmd := by
  unfold applespi_build_and_send
  cases ok <;> rfl

theorem build_and_send_want_cl (s1 : St) (d t m : Nat) (ok : Bool) :
    (applespi_build_and_send s1 d t m ok).1.want_cl_led_on = s1.want_cl_led_on := by
  unfold applespi_build_and_send
  cases ok <;> rfl

theorem build_and_send_have_cl (s1 : St) (d t m : Nat) (ok : Bool) :
    (applespi_build_and_send s1 d t m ok).1.have_cl_led_on = s1.have_cl_led_on := by
  unfold applespi_build_and_send
  cases ok <;> rfl

theorem build_and_send_want_bl (s1 : St) (d t m : Nat) (ok : Bool) :
    (applespi_build_and_send s1 d t m ok).1.want_bl_level = s1.want_bl_level := by
  unfold applespi_build_and_send
  cases ok <;> rfl

theorem build_and_send_have_bl (s1 : St) (d t m : Nat) (ok : Bool) :
    (applespi_build_and_send s1 d t m ok).1.have_bl_level = s1.have_bl_level := by
  unfold applespi_build_and_send
  cases ok <;> rfl

theorem build_and_send_drain (s1 : St) (d t m : Nat) (ok : Bool) :
    (applespi_build_and_send s1 d t m ok).1.drain = s1.drain := by
  unfold applespi_build_and_send
  cases ok <;> rfl

theorem send_noop (s : St) (ok : Bool)
    (h : s.drain = true ∨ s.cmd_msg_queued = true) :
    applespi_send_cmd_msg s ok = (s, none) := by
  unfold applespi_send_cmd_msg
  rcases h with h | h
  · rw [if_pos h]
  · by_cases hd : s.drain = true
    · rw [if_pos hd]
    · rw [if_neg hd, if_pos h]

theorem send_sub_init (s : St) (ok : Bool) (h1 : s.drain = false)
    (h2 : s.cmd_msg_queued = false) (h3 : s.want_init_cmd = true) :
    applespi_send_cmd_msg s ok =
      applespi_build_and_send
        { s with want_init_cmd := false, cmd_log_mask := DBG_CMD_TP_INI }
        PACKET_DEV_TPAD 0x0252 4 ok := by
  unfold applespi_send_cmd_msg
  rw [if_neg (by simp [h1]), if_neg (by simp [h2]), if_pos h3]

theorem send_sub_capsl (s : St) (ok : Bool) (h1 : s.drain = false)
    (h2 : s.cmd_msg_queued = false) (h3 : s.want_init_cmd = false)
    (h4 : s.want_cl_led_on ≠ s.have_cl_led_on) :
    applespi_send_cmd_msg s ok =
      applespi_build_and_send
        { s with have_cl_led_on := s.want_cl_led_on, cmd_log_mask := DBG_CMD_CL }
        PACKET_DEV_KEYB 0x0151 4 ok := by
  unfold applespi_send_cmd_msg
  rw [if_neg (by simp [h1]), if_neg (by simp [h2]), if_neg (by simp [h3]),
    if_pos h4]

theorem send_sub_bl (s : St) (ok : Bool) (h1 : s.drain = false)
    (h2 : s.cmd_msg_queued = false) (h3 : s.want_init_cmd = false)
    (h4 : s.want_cl_led_on = s.have_cl_led_on)
    (h5 : s.want_bl_level ≠ s.have_bl_level) :
    applespi_send_cmd_msg s ok =
      applespi_build_and_send
        { s with have_bl_level := s.want_bl_level, cmd_log_mask := DBG_CMD_BL }
        PACKET_DEV_KEYB 0xB051 8 ok := by
  unfold applespi_send_cmd_msg
  rw [if_neg (by simp [h1]), if_neg (by simp [h2]), if_neg (by simp [h3]),
    if_neg (by simp [h4]), if_pos h5]

theorem send_sub_none (s : St) (ok : Bool) (h3 : s.want_init_cmd = false)
    (h4 : s.want_cl_led_on = s.have_cl_led_on)
    (h5 : s.want_bl_level = s.have_bl_level) :
    applespi_send_cmd_msg s ok = (s, none) := by
  unfold applespi_send_cmd_msg
  by_cases h1 : s.drain = true
  · rw [if_pos h1]
  · by_cases h2 : s.cmd_msg_queued = true
    · rw [if_neg h1, if_pos h2]
    · rw [if_neg h1, if_neg h2, if_neg (by simp [h3]), if_neg (by simp [h4]),
        if_neg (by simp [h5])]

theorem send_queued_iff (s : St) (ok : Bool) :
    (applespi_send_cmd_msg s ok).1.cmd_msg_queued = true ↔
      (s.cmd_msg_queued = true ∨
       ((applespi_send_cmd_msg s ok).2.isSome = true ∧ ok = true)) := by
  by_cases h1 : s.drain = true
  · rw [send_noop s ok (Or.inl h1)]
    simp
  · by_cases h2 : s.cmd_msg_queued = true
    · rw [send_noop s ok (Or.inr h2)]
      simp [h2]
    · rw [Bool.not_eq_true] at h1 h2
      by_cases h3 : s.want_init_cmd = true
      · rw [send_sub_init s ok h1 h2 h3, build_and_send_queued, build_and_send_sub]
        cases ok <;> simp [h2]
      · rw [Bool.not_eq_true] at h3
        by_cases h4 : s.want_cl_led_on = s.have_cl_led_on
        · by_cases h5 : s.want_bl_level = s.have_bl_level
          · rw [send_sub_none s ok h3 h4 h5]
            simp [h2]
          · rw [send_sub_bl s ok h1 h2 h3 h4 h5, build_and_send_queued,
              build_and_send_sub]
            cases ok <;> simp [h2]
        · rw [send_sub_capsl s ok h1 h2 h3 h4, build_and_send_queued,
            build_and_send_sub]
          cases ok <;> simp [h2]

theorem msg_complete_queued_read (s : St) (ir ok : Bool) :
    (applespi_msg_complete s false ir ok).st.cmd_msg_queued = s.cmd_msg_queued := by
  cases ir <;> simp [applespi_msg_complete]

theorem msg_complete_write_queued_iff (s : St) (ir ok : Bool) :
    (applespi_msg_complete s true ir ok).st.cmd_msg_queued = true ↔
      ((applespi_msg_complete s true ir ok).sub.isSome = true ∧ ok = true) := by
  have h := send_queued_iff
    { s with
      read_active := if ir = true then false else s.read_active,
      write_active := false, cmd_msg_queued := false } ok
  cases ir <;> simpa [applespi_msg_complete] using h

/-- C1: while draining or while a command message is queued,
applespi_send_cmd_msg submits nothing and leaves the state unchanged;
cmd_msg_queued becomes true exactly when a command was handed to
applespi_async and the submission succeeded; a pure read completion and the
read-issue path never change cmd_msg_queued; and after a write completion
cmd_msg_queued is true exactly when the re-invoked send submitted a fresh
command successfully. -/
theorem claim_C1_write_serialization :
    (∀ (s : St) (ok : Bool), s.drain = true ∨ s.cmd_msg_queued = true →
      applespi_send_cmd_msg s ok = (s, none)) ∧
    (∀ (s : St) (ok : Bool),
      (applespi_send_cmd_msg s ok).1.cmd_msg_queued = true ↔
        (s.cmd_msg_queued = true ∨
         ((applespi_send_cmd_msg s ok).2.isSome = true ∧ ok = true))) ∧
    (∀ (s : St) (ir ok : Bool),
      (applespi_msg_complete s false ir ok).st.cmd_msg_queued =
        s.cmd_msg_queued) ∧
    (∀ (s : St) (ok : Bool),
      (applespi_notify s ok).1.cmd_msg_queued = s.cmd_msg_queued) ∧
    (∀ (s : St) (ir ok : Bool),
      (applespi_msg_complete s true ir ok).st.cmd_msg_queued = true ↔
        ((applespi_msg_complete s true ir ok).sub.isSome = true ∧ ok = true)) := by
  refine ⟨send_noop, send_queued_iff, msg_complete_queued_read, ?_,
    msg_complete_write_queued_iff⟩
  intro s ok
  cases ok <;> rfl

/-- C1 witness: in a state with a command already queued, a further send is a
no-op, and after a successful write completion with nothing further pending
the queue flag stays cleared. -/
theorem claim_C1_witness :
    applespi_send_cmd_msg { st0 with cmd_msg_queued := true } true =
      ({ st0 with cmd_msg_queued := true }, none) ∧
    ((applespi_msg_complete { st0 with cmd_msg_queued := true } true true
        true).st.cmd_msg_queued = true ↔
      ((applespi_msg_complete { st0 with cmd_msg_queued := true } true true
          true).sub.isSome = true ∧ (true : Bool) = true)) :=
  ⟨claim_C1_write_serialization.1 { st0 with cmd_msg_queued := true } true
      (Or.inr rfl),
   claim_C1_write_serialization.2.2.2.2 { st0 with cmd_msg_queued := true }
      true true⟩

/-- Driver state used by the C3 counterexample: init and caps-lock both
pending. -/
def c3_s1 : St := { st0 with want_init_cmd := true, want_cl_led_on := true }

/-- First build from c3_s1: the init command. -/
def c3_r1 : St × Option Cmd := applespi_send_cmd_msg c3_s1 true

/-- Completion of the first write: builds the caps-lock command. -/
def c3_r2 : MC := applespi_msg_complete c3_r1.1 true true true

/-- A second init request arrives while the caps-lock command is queued. -/
def c3_s3 : St := { c3_r2.st with want_init_cmd := true }

/-- Completion of the second write: builds the second init command. -/
def c3_r3 : MC := applespi_msg_complete c3_s3 true true true

/-- C3 counterexample: the driver keeps one shared cmd_msg_cntr, not one
counter per message kind.  In the concrete run init, caps-lock, init the two
init commands carry counters 0 and 2, whereas the claim requires the second
init counter to be (0 + 1) % 256 = 1 independent of the interleaved caps-lock
message. -/
theorem claim_C3_counterexample :
    c3_r1.2 = some ⟨PACKET_DEV_TPAD, 0x0252, 0, 4⟩ ∧
    c3_r2.sub = some ⟨PACKET_DEV_KEYB, 0x0151, 1, 4⟩ ∧
    c3_r3.sub = some ⟨PACKET_DEV_TPAD, 0x0252, 2, 4⟩ ∧
    (2 : Nat) ≠ (0 + 1) % 256 := by
  decide

/-- C3 amended: all outbound command messages share the single cmd_msg_cntr;
every built message carries the current counter modulo 256 and bumps the
shared counter by one (modulo 2^32), irrespective of kind, and a send that
builds nothing leaves the counter unchanged. -/
theorem claim_C3_shared_counter :
    (∀ (s : St) (ok : Bool) (c : Cmd),
      (applespi_send_cmd_msg s ok).2 = some c →
      c.counter = s.cmd_msg_cntr % 256 ∧
      (applespi_send_cmd_msg s ok).1.cmd_msg_cntr % 256 = (c.counter + 1) % 256) ∧
    (∀ (s : St) (ok : Bool),
      (applespi_send_cmd_msg s ok).2 = none →
      (applespi_send_cmd_msg s ok).1.cmd_msg_cntr = s.cmd_msg_cntr) := by
  constructor
  · intro s ok c hsub
    by_cases h1 : s.drain = true
    · rw [send_noop s ok (Or.inl h1)] at hsub
      cases hsub
    by_cases h2 : s.cmd_msg_queued = true
    · rw [send_noop s ok (Or.inr h2)] at hsub
      cases hsub
    rw [Bool.not_eq_true] at h1 h2
    by_cases h3 : s.want_init_cmd = true
    · rw [send_sub_init s ok h1 h2 h3] at hsub ⊢
      rw [build_and_send_sub] at hsub
      cases hsub
      rw [build_and_send_cntr]
      refine ⟨rfl, ?_⟩
      dsimp only
      simp only [U32]
      omega
    rw [Bool.not_eq_true] at h3
    by_cases h4 : s.want_cl_led_on = s.have_cl_led_on
    · by_cases h5 : s.want_bl_level = s.have_bl_level
      · rw [send_sub_none s ok h3 h4 h5] at hsub
        cases hsub
      · rw [send_sub_bl s ok h1 h2 h3 h4 h5] at hsub ⊢
        rw [build_and_send_sub] at hsub
        cases hsub
        rw [build_and_send_cntr]
        refine ⟨rfl, ?_⟩
        dsimp only
        simp only [U32]
        omega
    · rw [send_sub_capsl s ok h1 h2 h3 h4] at hsub ⊢
      rw [build_and_send_sub] at hsub
      cases hsub
      rw [build_and_send_cntr]
      refine ⟨rfl, ?_⟩
      dsimp only
      simp only [U32]
      omega
  · intro s ok hnone
    by_cases h1 : s.drain = true
    · rw [send_noop s ok (Or.inl h1)]
    by_cases h2 : s.cmd_msg_queued = true
    · rw [send_noop s ok (Or.inr h2)]
    rw [Bool.not_eq_true] at h1 h2
    by_cases h3 : s.want_init_cmd = true
    · rw [send_sub_init s ok h1 h2 h3, build_and_send_sub] at hnone
      cases hnone
    rw [Bool.not_eq_true] at h3
    by_cases h4 : s.want_cl_led_on = s.have_cl_led_on
    · by_cases h5 : s.want_bl_level = s.have_bl_level
      · rw [send_sub_none s ok h3 h4 h5]
      · rw [send_sub_bl s ok h1 h2 h3 h4 h5, build_and_send_sub] at hnone
        cases hnone
    · rw [send_sub_capsl s ok h1 h2 h3 h4, build_and_send_sub] at hnone
      cases hnone

/-- C3 witness: the counter facts evaluated on the concrete state c3_s1. -/
theorem claim_C3_witness :
    (⟨PACKET_DEV_TPAD, 0x0252, 0, 4⟩ : Cmd).counter = c3_s1.cmd_msg_cntr % 256 ∧
    (applespi_send_cmd_msg c3_s1 true).1.cmd_msg_cntr % 256 =
      ((⟨PACKET_DEV_TPAD, 0x0252, 0, 4⟩ : Cmd).counter + 1) % 256 :=
  claim_C3_shared_counter.1 c3_s1 true ⟨PACKET_DEV_TPAD, 0x0252, 0, 4⟩ (by decide)

end Applespi

namespace Applespi

/-- The backlight mapping as the spec words it: round(value * (MAX-MIN) / 255)
+ MIN for nonzero values (round half up, written with integer arithmetic).
Used only to compare the spec formula against the device_level the code
computes. -/
def device_level_spec (value : Nat) : Nat :=
  if value = 0 then 0
  else (2 * (value * (MAX_KBD_BL_LEVEL - MIN_KBD_BL_LEVEL)) + 255) / (2 * 255) +
    MIN_KBD_BL_LEVEL

/-- C4 counterexample: at user value 255 the code computes 254, not the
claimed MAX_KBD_BL_LEVEL = 255 demanded by the rounding formula: the two-stage
integer division through KBD_BL_LEVEL_ADJ = 874509 loses the fraction. -/
theorem claim_C4_counterexample :
    device_level 255 = 254 ∧
    device_level_spec 255 = 255 ∧
    device_level 255 ≠ device_level_spec 255 ∧
    device_level 255 ≠ MAX_KBD_BL_LEVEL := by
  decide

/-- C4 amended: device_level(0) = 0, device_level(1) = MIN_KBD_BL_LEVEL,
device_level is monotone nondecreasing, but device_level(255) = 254, and for
nonzero input the value is value * KBD_BL_LEVEL_ADJ / KBD_BL_LEVEL_SCALE +
MIN_KBD_BL_LEVEL with truncating integer division, not the rounded
single-stage formula. -/
theorem claim_C4_device_level :
    device_level 0 = 0 ∧
    device_level 1 = MIN_KBD_BL_LEVEL ∧
    device_level 255 = 254 ∧
    (∀ a b : Nat, a ≤ b → device_level a ≤ device_level b) ∧
    (∀ u : Nat, 1 ≤ u →
      device_level u = u * KBD_BL_LEVEL_ADJ / KBD_BL_LEVEL_SCALE +
        MIN_KBD_BL_LEVEL) := by
  refine ⟨by decide, by decide, by decide, ?_, ?_⟩
  · intro a b h
    unfold device_level
    by_cases ha : a = 0
    · subst ha
      simp
    · have hb : ¬b = 0 := by omega
      rw [if_neg ha, if_neg hb]
      exact Nat.add_le_add_right
        (Nat.div_le_div_right (Nat.mul_le_mul_right _ h)) _
  · intro u hu
    unfold device_level
    rw [if_neg (by omega)]

/-- C4 witness: the monotonicity and formula facts evaluated at concrete
inputs. -/
theorem claim_C4_witness :
    device_level 3 ≤ device_level 7 ∧
    device_level 2 = 2 * KBD_BL_LEVEL_ADJ / KBD_BL_LEVEL_SCALE +
      MIN_KBD_BL_LEVEL :=
  ⟨claim_C4_device_level.2.2.2.1 3 7 (by decide),
   claim_C4_device_level.2.2.2.2 2 (by decide)⟩

/-- A draining state for the C5 counterexample. -/
def c5_s : St := { st0 with drain := true }

/-- C5 counterexample: applespi_notify checks neither drain nor read_active:
in a draining state it still submits a read and flips read_active to true, and
with a read already active it submits another read. -/
theorem claim_C5_counterexample :
    c5_s.drain = true ∧
    c5_s.read_active = false ∧
    (applespi_notify c5_s true).2 = true ∧
    (applespi_notify c5_s true).1.read_active = true ∧
    (applespi_notify { st0 with read_active := true } true).2 = true := by
  decide

/-- C5 amended: applespi_notify submits a read unconditionally, in every state
(draining or not, read in flight or not); read_active becomes true exactly
when the submission succeeded, and no other field changes.  Protection against
reads during drain comes from externally disabling the GPE, not from this
handler. -/
theorem claim_C5_notify_unconditional :
    ∀ (s : St) (ok : Bool),
      (applespi_notify s ok).2 = true ∧
      (applespi_notify s ok).1.read_active = (ok || s.read_active) ∧
      (applespi_notify s ok).1.drain = s.drain ∧
      (applespi_notify s ok).1.cmd_msg_queued = s.cmd_msg_queued ∧
      (applespi_notify s ok).1.write_active = s.write_active ∧
      (applespi_notify s ok).1.saved_msg_len = s.saved_msg_len := by
  intro s ok
  cases ok <;> simp [applespi_notify]

/-- A state with the caps-lock change pending, for the C9 counterexample. -/
def c9_s : St := { st0 with want_cl_led_on := true }

/-- C9 counterexample: with submission failing (spi_async error), the builder
has already set have_cl_led_on := want_cl_led_on at build time, so the applied
state of the chosen field changed even though no write was queued. -/
theorem claim_C9_counterexample :
    c9_s.want_cl_led_on ≠ c9_s.have_cl_led_on ∧
    (applespi_send_cmd_msg c9_s false).2 = some ⟨PACKET_DEV_KEYB, 0x0151, 0, 4⟩ ∧
    (applespi_send_cmd_msg c9_s false).1.cmd_msg_queued = false ∧
    (applespi_send_cmd_msg c9_s false).1.write_active = false ∧
    (applespi_send_cmd_msg c9_s false).1.have_cl_led_on = true := by
  decide

/-- C9 amended: the builder emits a caps-lock (resp. backlight) command only
when desired differs from applied, and sets applied := desired at build time,
before the submission result is known, so the update happens whether or not
the spi_async submission succeeds. -/
theorem claim_C9_applied_at_build_time :
    (∀ (s : St) (ok : Bool) (c : Cmd),
      (applespi_send_cmd_msg s ok).2 = some c → c.msgType = 0x0151 →
      s.want_cl_led_on ≠ s.have_cl_led_on ∧
      (applespi_send_cmd_msg s ok).1.have_cl_led_on = s.want_cl_led_on) ∧
    (∀ (s : St) (ok : Bool) (c : Cmd),
      (applespi_send_cmd_msg s ok).2 = some c → c.msgType = 0xB051 →
      s.want_bl_level ≠ s.have_bl_level ∧
      (applespi_send_cmd_msg s ok).1.have_bl_level = s.want_bl_level) := by
  constructor
  · intro s ok c hsub hty
    by_cases h1 : s.drain = true
    · rw [send_noop s ok (Or.inl h1)] at hsub
      cases hsub
    by_cases h2 : s.cmd_msg_queued = true
    · rw [send_noop s ok (Or.inr h2)] at hsub
      cases hsub
    rw [Bool.not_eq_true] at h1 h2
    by_cases h3 : s.want_init_cmd = true
    · rw [send_sub_init s ok h1 h2 h3, build_and_send_sub] at hsub
      cases hsub
      cases hty
    rw [Bool.not_eq_true] at h3
    by_cases h4 : s.want_cl_led_on = s.have_cl_led_on
    · by_cases h5 : s.want_bl_level = s.have_bl_level
      · rw [send_sub_none s ok h3 h4 h5] at hsub
        cases hsub
      · rw [send_sub_bl s ok h1 h2 h3 h4 h5, build_and_send_sub] at hsub
        cases hsub
        cases hty
    · refine ⟨h4, ?_⟩
      rw [send_sub_capsl s ok h1 h2 h3 h4, build_and_send_have_cl]
  · intro s ok c hsub hty
    by_cases h1 : s.drain = true
    · rw [send_noop s ok (Or.inl h1)] at hsub
      cases hsub
    by_cases h2 : s.cmd_msg_queued = true
    · rw [send_noop s ok (Or.inr h2)] at hsub
      cases hsub
    rw [Bool.not_eq_true] at h1 h2
    by_cases h3 : s.want_init_cmd = true
    · rw [send_sub_init s ok h1 h2 h3, build_and_send_sub] at hsub
      cases hsub
      cases hty
    rw [Bool.not_eq_true] at h3
    by_cases h4 : s.want_cl_led_on = s.have_cl_led_on
    · by_cases h5 : s.want_bl_level = s.have_bl_level
      · rw [send_sub_none s ok h3 h4 h5] at hsub
        cases hsub
      · refine ⟨h5, ?_⟩
        rw [send_sub_bl s ok h1 h2 h3 h4 h5, build_and_send_have_bl]
    · rw [send_sub_capsl s ok h1 h2 h3 h4, build_and_send_sub] at hsub
      cases hsub
      cases hty

/-- C9 witness: the amended facts applied to the concrete pending-caps-lock
state with a failing submission. -/
theorem claim_C9_witness :
    c9_s.want_cl_led_on ≠ c9_s.have_cl_led_on ∧
    (applespi_send_cmd_msg c9_s false).1.have_cl_led_on = c9_s.want_cl_led_on :=
  claim_C9_applied_at_build_time.1 c9_s false ⟨PACKET_DEV_KEYB, 0x0151, 0, 4⟩
    (by decide) (by decide)

end Applespi

namespace Applespi

theorem msg_complete_sub (s : St) (ir ok : Bool) :
    (applespi_msg_complete s true ir ok).sub =
      (applespi_send_cmd_msg
        { s with
          read_active := if ir = true then false else s.read_active,
          write_active := false,
          cmd_msg_queued := false } ok).2 := by
  cases ir <;> rfl

theorem send_after_init_capsl (s : St) (h1 : s.drain = false)
    (h2 : s.cmd_msg_queued = false) (h3 : s.want_init_cmd = true)
    (h4 : s.want_cl_led_on ≠ s.have_cl_led_on) :
    (applespi_msg_complete (applespi_send_cmd_msg s true).1 true true true).sub =
      some ⟨PACKET_DEV_KEYB, 0x0151, ((s.cmd_msg_cntr + 1) % U32) % 256, 4⟩ := by
  rw [send_sub_init s true h1 h2 h3, msg_complete_sub]
  rw [send_sub_capsl _ true (by simp [build_and_send_drain, h1]) (by simp)
    (by simp [build_and_send_want_init])
    (by simp only [build_and_send_want_cl, build_and_send_have_cl]
        simpa using h4)]
  rw [build_and_send_sub]
  simp [build_and_send_cntr]

/-- C8: with neither drain nor a queued command, applespi_send_cmd_msg obeys
the priority order: init first, else caps-lock when desired differs from
applied, else backlight when desired differs from applied, else it builds
nothing and changes nothing; and when init, caps-lock and backlight are all
pending at once, the first build is init and the build triggered by that
write's completion is caps-lock. -/
theorem claim_C8_priority :
    (∀ (s : St) (ok : Bool), s.drain = false → s.cmd_msg_queued = false →
      ((s.want_init_cmd = true →
        (applespi_send_cmd_msg s ok).2 =
          some ⟨PACKET_DEV_TPAD, 0x0252, s.cmd_msg_cntr % 256, 4⟩) ∧
       (s.want_init_cmd = false → s.want_cl_led_on ≠ s.have_cl_led_on →
        (applespi_send_cmd_msg s ok).2 =
          some ⟨PACKET_DEV_KEYB, 0x0151, s.cmd_msg_cntr % 256, 4⟩) ∧
       (s.want_init_cmd = false → s.want_cl_led_on = s.have_cl_led_on →
        s.want_bl_level ≠ s.have_bl_level →
        (applespi_send_cmd_msg s ok).2 =
          some ⟨PACKET_DEV_KEYB, 0xB051, s.cmd_msg_cntr % 256, 8⟩) ∧
       (s.want_init_cmd = false → s.want_cl_led_on = s.have_cl_led_on →
        s.want_bl_level = s.have_bl_level →
        applespi_send_cmd_msg s ok = (s, none)))) ∧
    (∀ s : St, s.drain = false → s.cmd_msg_queued = false →
      s.want_init_cmd = true → s.want_cl_led_on ≠ s.have_cl_led_on →
      ((applespi_send_cmd_msg s true).2 =
        some ⟨PACKET_DEV_TPAD, 0x0252, s.cmd_msg_cntr % 256, 4⟩ ∧
       (applespi_msg_complete (applespi_send_cmd_msg s true).1 true true
          true).sub =
        some ⟨PACKET_DEV_KEYB, 0x0151, ((s.cmd_msg_cntr + 1) % U32) % 256, 4⟩)) := by
  constructor
  · intro s ok h1 h2
    refine ⟨?_, ?_, ?_, ?_⟩
    · intro h3
      rw [send_sub_init s ok h1 h2 h3, build_and_send_sub]
    · intro h3 h4
      rw [send_sub_capsl s ok h1 h2 h3 h4, build_and_send_sub]
    · intro h3 h4 h5
      rw [send_sub_bl s ok h1 h2 h3 h4 h5, build_and_send_sub]
    · intro h3 h4 h5
      exact send_sub_none s ok h3 h4 h5
  · intro s h1 h2 h3 h4
    refine ⟨?_, send_after_init_capsl s h1 h2 h3 h4⟩
    rw [send_sub_init s true h1 h2 h3, build_and_send_sub]

/-- Concrete all-pending state for the C8 witness. -/
def c8_s : St :=
  { st0 with want_init_cmd := true, want_cl_led_on := true, want_bl_level := 5 }

/-- C8 witness: on the concrete all-pending state, the first build is the init
command (counter 0) and the build after its completion is caps-lock
(counter 1). -/
theorem claim_C8_witness :
    (applespi_send_cmd_msg c8_s true).2 =
      some ⟨PACKET_DEV_TPAD, 0x0252, 0, 4⟩ ∧
    (applespi_msg_complete (applespi_send_cmd_msg c8_s true).1 true true
        true).sub =
      some ⟨PACKET_DEV_KEYB, 0x0151, 1, 4⟩ := by
  have h := claim_C8_priority.2 c8_s rfl rfl rfl (by decide)
  exact ⟨h.1, h.2⟩

/-- C10: applespi_resume resets drain, cmd_msg_queued, read_active and
write_active to false and the applied configuration to off (have_cl_led_on =
false, have_bl_level = 0) while leaving the desired values untouched; hence a
desired caps-lock-on or nonzero backlight is pending again after resume; the
resume itself builds and submits the init command, and the completion of that
write builds the caps-lock command whenever caps-lock is desired on. -/
theorem claim_C10_resume :
    (∀ s : St,
      (applespi_resume_reset s).drain = false ∧
      (applespi_resume_reset s).cmd_msg_queued = false ∧
      (applespi_resume_reset s).read_active = false ∧
      (applespi_resume_reset s).write_active = false ∧
      (applespi_resume_reset s).have_cl_led_on = false ∧
      (applespi_resume_reset s).have_bl_level = 0 ∧
      (applespi_resume_reset s).want_cl_led_on = s.want_cl_led_on ∧
      (applespi_resume_reset s).want_bl_level = s.want_bl_level ∧
      (applespi_resume_reset s).cmd_msg_cntr = s.cmd_msg_cntr) ∧
    (∀ s : St, s.want_cl_led_on = true →
      (applespi_resume_reset s).want_cl_led_on ≠
        (applespi_resume_reset s).have_cl_led_on) ∧
    (∀ s : St, s.want_bl_level ≠ 0 →
      (applespi_resume_reset s).want_bl_level ≠
        (applespi_resume_reset s).have_bl_level) ∧
    (∀ (s : St) (ok : Bool),
      (applespi_resume s ok).2 =
        some ⟨PACKET_DEV_TPAD, 0x0252, s.cmd_msg_cntr % 256, 4⟩) ∧
    (∀ s : St, s.want_cl_led_on = true →
      (applespi_msg_complete (applespi_resume s true).1 true true true).sub =
        some ⟨PACKET_DEV_KEYB, 0x0151, ((s.cmd_msg_cntr + 1) % U32) % 256, 4⟩) := by
  refine ⟨?_, ?_, ?_, ?_, ?_⟩
  · intro s
    exact ⟨rfl, rfl, rfl, rfl, rfl, rfl, rfl, rfl, rfl⟩
  · intro s h
    simp [applespi_resume_reset, h]
  · intro s h
    simpa [applespi_resume_reset] using h
  · intro s ok
    unfold applespi_resume applespi_init
    rw [send_sub_init _ ok rfl rfl rfl, build_and_send_sub]
    rfl
  · intro s hcl
    unfold applespi_resume applespi_init
    exact send_after_init_capsl _ rfl rfl rfl
      (by simp [applespi_resume_reset, hcl])

/-- C10 witness: the resume facts evaluated on a concrete state that had a
queued write, applied caps-lock on, and desires caps-lock on. -/
theorem claim_C10_witness :
    ((applespi_resume_reset
        { st0 with want_cl_led_on := true, have_cl_led_on := true,
                   cmd_msg_queued := true, drain := true }).want_cl_led_on ≠
      (applespi_resume_reset
        { st0 with want_cl_led_on := true, have_cl_led_on := true,
                   cmd_msg_queued := true, drain := true }).have_cl_led_on) ∧
    (applespi_msg_complete
        (applespi_resume
          { st0 with want_cl_led_on := true, have_cl_led_on := true,
                     cmd_msg_queued := true, drain := true } true).1
        true true true).sub =
      some ⟨PACKET_DEV_KEYB, 0x0151, 1, 4⟩ := by
  refine ⟨claim_C10_resume.2.1 _ rfl, ?_⟩
  have h := claim_C10_resume.2.2.2.2
    { st0 with want_cl_led_on := true, have_cl_led_on := true,
               cmd_msg_queued := true, drain := true } rfl
  exact h

end Applespi

namespace Applespi

/-- First frame of a two-frame message (246 payload bytes, 54 remaining),
used by the C2 counterexample. -/
def c2_f1 : List Nat :=
  mkPacketBytes PACKET_TYPE_READ PACKET_DEV_KEYB 0 54 246 (List.replicate 246 0)

/-- A continuation frame with a wrong offset (100 instead of 246), used by the
C2 counterexample. -/
def c2_f2bad : List Nat :=
  mkPacketBytes PACKET_TYPE_READ PACKET_DEV_KEYB 100 0 54 (List.replicate 54 1)

/-- State after accepting the first frame. -/
def c2_g1 : GD := applespi_got_data st0 c2_f1 true

/-- State after the rejected wrong-offset frame. -/
def c2_g2 : GD := applespi_got_data c2_g1.st c2_f2bad true

/-- C2 counterexample: after the reassembler accumulated 246 bytes, a frame
rejected for an unexpected offset leaves saved_msg_len at 246 instead of
discarding the partial state: the goto cleanup paths of applespi_got_data skip
the saved_msg_len reset at line 1385. -/
theorem claim_C2_counterexample :
    c2_g1.out = Outcome.incomplete ∧
    c2_g1.st.saved_msg_len = 246 ∧
    c2_g2.out = Outcome.unexpectedOffset ∧
    c2_g2.st.saved_msg_len = 246 ∧
    c2_g2.st.saved_msg_len ≠ 0 := by
  decide

/-- C2 amended: frame-level rejections (frame crc mismatch, invalid packet
length, unexpected offset, message too large) leave saved_msg_len and msg_buf
exactly as they were, discarding nothing; only once a message is complete is
saved_msg_len reset to 0, so the message-level rejections (length mismatch,
message crc mismatch, touchpad length mismatch) and completed messages end
with saved_msg_len = 0. -/
theorem claim_C2_reject_keeps_partial_state :
    (∀ (s : St) (rx : List Nat) (ok : Bool),
      ((applespi_got_data s rx ok).out = Outcome.frameCrcBad ∨
       (applespi_got_data s rx ok).out = Outcome.invalidPktLen ∨
       (applespi_got_data s rx ok).out = Outcome.unexpectedOffset ∨
       (applespi_got_data s rx ok).out = Outcome.msgTooLarge) →
      ((applespi_got_data s rx ok).st.saved_msg_len = s.saved_msg_len ∧
       (applespi_got_data s rx ok).st.msgBuf = s.msgBuf)) ∧
    (∀ (s : St) (rx : List Nat) (ok : Bool),
      ((applespi_got_data s rx ok).out = Outcome.lenMismatch ∨
       (applespi_got_data s rx ok).out = Outcome.msgCrcBad ∨
       (applespi_got_data s rx ok).out = Outcome.tpLenBad ∨
       (∃ m, (applespi_got_data s rx ok).out = Outcome.complete m)) →
      (applespi_got_data s rx ok).st.saved_msg_len = 0) := by
  constructor
  · intro s rx ok h
    simp only [applespi_got_data] at h ⊢
    split_ifs at h ⊢
    all_goals
      first
      | exact ⟨rfl, rfl⟩
      | (rw [gd_cleanup_saved, gd_cleanup_msgBuf]; exact ⟨rfl, rfl⟩)
      | (exfalso; rcases h with h | h | h | h <;> cases h)
      | (exfalso
         rcases finish_out _ _ _ _ _ _ with ho | ho | ho | ho <;>
           rw [ho] at h <;> rcases h with h | h | h | h <;> cases h)
  · intro s rx ok h
    simp only [applespi_got_data] at h ⊢
    split_ifs at h ⊢
    all_goals
      first
      | exact finish_saved ..
      | (exfalso; rw [gd_cleanup_out] at h
         rcases h with h | h | h | ⟨m, h⟩ <;> cases h)
      | (exfalso; rcases h with h | h | h | ⟨m, h⟩ <;> cases h)

/-- C2 witness: the amended frame-level-rejection fact applied to the concrete
wrong-offset frame arriving in the reset state. -/
theorem claim_C2_witness :
    (applespi_got_data st0 c2_f2bad true).st.saved_msg_len = st0.saved_msg_len ∧
    (applespi_got_data st0 c2_f2bad true).st.msgBuf = st0.msgBuf :=
  claim_C2_reject_keeps_partial_state.1 st0 c2_f2bad true
    (Or.inr (Or.inr (Or.inl (by decide))))

/-- Draining state with a read in flight, for the C6 counterexample. -/
def c6_s : St := { st0 with drain := true, read_active := true }

/-- C6 counterexample: a transport-level read failure (rd_m.status < 0) while
draining leaves read_active true and does not wake the drain waiters:
applespi_async_read_complete only logs on a negative status. -/
theorem claim_C6_counterexample :
    c6_s.drain = true ∧
    (applespi_async_read_complete c6_s false [] true).st.read_active = true ∧
    (applespi_async_read_complete c6_s false [] true).wake = false := by
  decide

/-- C6 amended: on transport-level failure the read completion handler does
nothing at all (read_active is not cleared, nobody is woken); a frame crc
mismatch while draining clears read_active and write_active and wakes the
drain waiters; and on a successfully transferred frame the completion
bookkeeping clears read_active except on the frame-crc-mismatch and
mid-message (Incomplete) early returns. -/
theorem claim_C6_read_completion :
    (∀ (s : St) (rx : List Nat) (ok : Bool),
      applespi_async_read_complete s false rx ok =
        ⟨s, Outcome.transportError, false, none⟩) ∧
    (∀ (s : St) (rx : List Nat) (ok : Bool),
      crc16 0 rx ≠ 0 → s.drain = true →
      ((applespi_got_data s rx ok).st.read_active = false ∧
       (applespi_got_data s rx ok).st.write_active = false ∧
       (applespi_got_data s rx ok).wake = true)) ∧
    (∀ (s : St) (rx : List Nat) (ok : Bool),
      (applespi_got_data s rx ok).out ≠ Outcome.frameCrcBad →
      (applespi_got_data s rx ok).out ≠ Outcome.incomplete →
      (applespi_got_data s rx ok).st.read_active = false) := by
  refine ⟨fun s rx ok => rfl, ?_, ?_⟩
  · intro s rx ok hcrc hdrain
    simp only [applespi_got_data]
    rw [if_pos hcrc, if_pos hdrain]
    exact ⟨rfl, rfl, rfl⟩
  · intro s rx ok hfc hinc
    simp only [applespi_got_data] at hfc hinc ⊢
    split_ifs at hfc hinc ⊢
    all_goals
      first
      | exact gd_cleanup_read_active ..
      | exact finish_read_active ..
      | exact absurd rfl hfc
      | exact absurd rfl hinc

/-- C6 witness: the amended facts evaluated on the concrete draining state and
the empty (crc-failing) frame. -/
theorem claim_C6_witness :
    (applespi_got_data c6_s [1] true).st.read_active = false ∧
    (applespi_got_data c6_s [1] true).st.write_active = false ∧
    (applespi_got_data c6_s [1] true).wake = true :=
  claim_C6_read_completion.2.1 c6_s [1] true (by decide) rfl

end Applespi

namespace Applespi

/-- First frame of the 246 + 54 split of a 300-byte message: offset 0,
54 bytes remaining, 246 payload bytes. -/
def splitFrame1 (m : List Nat) : List Nat :=
  mkPacketBytes PACKET_TYPE_READ PACKET_DEV_KEYB 0 54 246 (m.take 246)

/-- Second frame of the split: offset 246, nothing remaining, 54 payload
bytes. -/
def splitFrame2 (m : List Nat) : List Nat :=
  mkPacketBytes PACKET_TYPE_READ PACKET_DEV_KEYB 246 0 54 (m.drop 246)

theorem sf1_flags (m : List Nat) : (splitFrame1 m).getD 0 0 = 32 := rfl

theorem sf1_device (m : List Nat) : (splitFrame1 m).getD 1 0 = 1 := rfl

theorem sf1_off (m : List Nat) : le16At (splitFrame1 m) 2 = 0 := rfl

theorem sf1_rem (m : List Nat) : le16At (splitFrame1 m) 4 = 54 := rfl

theorem sf1_len (m : List Nat) : le16At (splitFrame1 m) 6 = 246 := rfl

theorem sf2_flags (m : List Nat) : (splitFrame2 m).getD 0 0 = 32 := rfl

theorem sf2_device (m : List Nat) : (splitFrame2 m).getD 1 0 = 1 := rfl

theorem sf2_off (m : List Nat) : le16At (splitFrame2 m) 2 = 246 := rfl

theorem sf2_rem (m : List Nat) : le16At (splitFrame2 m) 4 = 0 := rfl

theorem sf2_len (m : List Nat) : le16At (splitFrame2 m) 6 = 54 := rfl

theorem mkPacketBytes_drop8 (flags device off rem len : Nat) (data : List Nat) :
    (mkPacketBytes flags device off rem len data).drop 8 =
      (data ++ List.replicate 246 0).take 246 ++
        le16bytes (crc16 0 ([flags, device] ++ le16bytes off ++ le16bytes rem ++
          le16bytes len ++ (data ++ List.replicate 246 0).take 246)) := rfl

theorem sf1_data (m : List Nat) (hm : 246 ≤ m.length) :
    ((splitFrame1 m).drop 8).take 246 = m.take 246 := by
  have h1 : (m.take 246).length = 246 := by
    rw [List.length_take]
    omega
  unfold splitFrame1
  rw [mkPacketBytes_drop8, List.take_left' h1, List.take_left' h1]

theorem sf2_data (m : List Nat) (hm : m.length = 300) :
    ((splitFrame2 m).drop 8).take 54 = m.drop 246 := by
  have h2 : (m.drop 246).length = 54 := by
    rw [List.length_drop, hm]
  unfold splitFrame2
  rw [mkPacketBytes_drop8]
  rw [List.take_append_of_le_length
    (by rw [List.length_take, List.length_append, List.length_replicate]; omega)]
  rw [List.take_take]
  norm_num
  rw [List.take_append_of_le_length (by omega)]
  rw [List.take_of_length_le (by omega)]

theorem memcpy_zero (buf data : List Nat) :
    memcpyAt buf 0 data = data ++ buf.drop data.length := by
  unfold memcpyAt
  rw [List.take_zero, List.nil_append, Nat.zero_add]

theorem gd_sf1 (s : St) (m : List Nat) (ok : Bool) (hm : m.length = 300)
    (hf1 : crc16 0 (splitFrame1 m) = 0) (hs : s.saved_msg_len = 0) :
    applespi_got_data s (splitFrame1 m) ok =
      ⟨{ s with msgBuf := m.take 246 ++ s.msgBuf.drop 246,
                saved_msg_len := 246 },
        Outcome.incomplete, false, none⟩ := by
  have hd : ((splitFrame1 m).drop 8).take 246 = m.take 246 :=
    sf1_data m (by omega)
  have hlen : (m.take 246).length = 246 := by
    rw [List.length_take]
    omega
  unfold applespi_got_data
  rw [if_neg (by simp [hf1])]
  simp only [sf1_flags, sf1_device, sf1_off, sf1_rem, sf1_len, hs, hd,
    memcpy_zero, hlen, MAX_PKTS_PER_MSG, APPLESPI_PACKET_SIZE]
  norm_num

theorem gd_sf2_complete (s1 : St) (m rest : List Nat) (ok : Bool)
    (hm : m.length = 300) (hml : le16At m 6 = 290) (hcrc : crc16 0 m = 0)
    (hf2 : crc16 0 (splitFrame2 m) = 0) (hsv : s1.saved_msg_len = 246)
    (hbuf : s1.msgBuf = m.take 246 ++ rest) :
    (applespi_got_data s1 (splitFrame2 m) ok).out = Outcome.complete m ∧
    (applespi_got_data s1 (splitFrame2 m) ok).st.saved_msg_len = 0 := by
  have h246 : (m.take 246).length = 246 := by
    rw [List.length_take]
    omega
  have h54 : (m.drop 246).length = 54 := by
    rw [List.length_drop, hm]
  have hd : ((splitFrame2 m).drop 8).take 54 = m.drop 246 := sf2_data m hm
  have hbt : s1.msgBuf.take 246 = m.take 246 := by
    rw [hbuf, List.take_left' h246]
  have hmsg : (memcpyAt s1.msgBuf 246 (m.drop 246)).take 300 = m := by
    unfold memcpyAt
    rw [hbt, List.take_append_of_le_length
      (by rw [List.length_append, h246, h54]), List.take_of_length_le
      (by rw [List.length_append, h246, h54]), List.take_append_drop]
  unfold applespi_got_data
  rw [if_neg (by simp [hf2])]
  simp only [sf2_flags, sf2_device, sf2_off, sf2_rem, sf2_len, hsv, hd,
    MAX_PKTS_PER_MSG, APPLESPI_PACKET_SIZE]
  norm_num
  unfold applespi_finish_msg
  rw [if_neg (by
    norm_num [hmsg, hml, U32, MSG_HEADER_SIZE])]
  rw [if_neg (by
    norm_num [hmsg, hcrc])]
  rw [if_pos (by norm_num [PACKET_TYPE_READ, PACKET_DEV_KEYB])]
  rw [gd_cleanup_out, gd_cleanup_saved]
  exact ⟨congrArg Outcome.complete hmsg, rfl⟩

theorem gd_sf2_badoffset (s : St) (m : List Nat) (ok : Bool)
    (hf2 : crc16 0 (splitFrame2 m) = 0) (hs : s.saved_msg_len = 0) :
    applespi_got_data s (splitFrame2 m) ok =
      gd_cleanup s Outcome.unexpectedOffset 32 ok := by
  unfold applespi_got_data
  rw [if_neg (by simp [hf2])]
  simp only [sf2_flags, sf2_device, sf2_off, sf2_rem, sf2_len, hs]
  norm_num

/-- C7: any 300-byte checksum-valid message split into 246 + 54 payload
frames, fed in order to the reassembler from a reset state, first yields
Incomplete and then the message bit-identically; fed out of order (second
frame first) the first frame is rejected with the unexpected-offset outcome
and the reassembly state is untouched, so the same exchange fed in order
afterwards still reassembles to the identical message. -/
theorem claim_C7_reassembly :
    ∀ (s : St) (m : List Nat) (ok : Bool),
      m.length = 300 → le16At m 6 = 290 → crc16 0 m = 0 →
      crc16 0 (splitFrame1 m) = 0 → crc16 0 (splitFrame2 m) = 0 →
      s.saved_msg_len = 0 →
      (((applespi_got_data s (splitFrame1 m) ok).out = Outcome.incomplete ∧
        (applespi_got_data (applespi_got_data s (splitFrame1 m) ok).st
          (splitFrame2 m) ok).out = Outcome.complete m ∧
        (applespi_got_data (applespi_got_data s (splitFrame1 m) ok).st
          (splitFrame2 m) ok).st.saved_msg_len = 0) ∧
       ((applespi_got_data s (splitFrame2 m) ok).out =
          Outcome.unexpectedOffset ∧
        (applespi_got_data s (splitFrame2 m) ok).st.saved_msg_len = 0 ∧
        (applespi_got_data s (splitFrame2 m) ok).st.msgBuf = s.msgBuf ∧
        (applespi_got_data (applespi_got_data s (splitFrame2 m) ok).st
          (splitFrame1 m) ok).out = Outcome.incomplete ∧
        (applespi_got_data
          (applespi_got_data (applespi_got_data s (splitFrame2 m) ok).st
            (splitFrame1 m) ok).st (splitFrame2 m) ok).out =
          Outcome.complete m)) := by
  intro s m ok hm hml hcrc hf1 hf2 hs
  have e1 := gd_sf1 s m ok hm hf1 hs
  have e3 := gd_sf2_badoffset s m ok hf2 hs
  have hs3 : (applespi_got_data s (splitFrame2 m) ok).st.saved_msg_len = 0 := by
    rw [e3, gd_cleanup_saved, hs]
  have e1' := gd_sf1 (applespi_got_data s (splitFrame2 m) ok).st m ok hm hf1 hs3
  refine ⟨⟨?_, ?_, ?_⟩, ?_, hs3, ?_, ?_, ?_⟩
  · rw [e1]
  · exact (gd_sf2_complete _ m (s.msgBuf.drop 246) ok hm hml hcrc hf2
      (by rw [e1]) (by rw [e1])).1
  · exact (gd_sf2_complete _ m (s.msgBuf.drop 246) ok hm hml hcrc hf2
      (by rw [e1]) (by rw [e1])).2
  · rw [e3, gd_cleanup_out]
  · rw [e3, gd_cleanup_msgBuf]
  · rw [e1']
  · exact (gd_sf2_complete _ m
      ((applespi_got_data s (splitFrame2 m) ok).st.msgBuf.drop 246) ok hm hml
      hcrc hf2 (by rw [e1']) (by rw [e1'])).1

/-- The header and zero payload of the concrete 300-byte witness message
(type 0, counter 0, declared length 0x0122 = 290). -/
def c7_pre : List Nat := [0, 0, 0, 0, 0, 0, 0x22, 0x01] ++ List.replicate 290 0

/-- The concrete witness message: 298 bytes followed by their crc16, so the
whole-message residue is zero. -/
def c7_m : List Nat := c7_pre.take 298 ++ le16bytes (crc16 0 (c7_pre.take 298))

/-- C7 witness: the reassembly facts evaluated on the concrete 300-byte
message from the reset state st0. -/
theorem claim_C7_witness :
    (applespi_got_data st0 (splitFrame1 c7_m) true).out = Outcome.incomplete ∧
    (applespi_got_data (applespi_got_data st0 (splitFrame1 c7_m) true).st
      (splitFrame2 c7_m) true).out = Outcome.complete c7_m ∧
    (applespi_got_data st0 (splitFrame2 c7_m) true).out =
      Outcome.unexpectedOffset :=
  have h := claim_C7_reassembly st0 c7_m true (by decide) (by decide)
    (by decide) (by decide) (by decide) rfl
  ⟨h.1.1, h.1.2.1, h.2.1⟩

end Applespi
